import Mathlib

/-!
Shallow embedding of `apple-music-rpc` (Rust): the metadata cache
(`src/cache.rs`), the artwork resolver and presence state machine
(`src/main.rs`, `src/structs.rs`), and one iteration of the connection
supervisor loop (`App::run` in `src/main.rs`).

Modelling conventions:
* `SystemTime` is a `Nat` counting whole seconds since the Unix epoch
  (the code only ever uses `as_secs()` of a `SystemTime` difference).
* Rust `f64` track positions/durations are modelled as `Rat`; the Rust
  `as i64` cast (truncation toward zero) is `f64ToI64`.
* `HashMap<String, CacheEntry>` is an association list with unique keys
  (insertion replaces the old binding).
* The cache file on disk is a single slot `FileContent`: missing,
  malformed (JSON that fails to parse), or a stored `{version, data}`
  document.  Directory creation and `fs::write` are assumed to succeed;
  their error paths are not exercised by any claim.
* External effects (AppleScript automation, the iTunes search API, the
  Discord sink) are parameters: script results are `Except` values, the
  search API is a function from the album flag to a response, the sink
  is a pair of success flags.  `App.search_album_artwork` additionally
  returns the list of album-flags of the search requests it issued, so
  that the number and order of network searches is observable.
-/

/-- `src/structs.rs` `ITunesInfos`: cached artwork/share-URL metadata. -/
structure ITunesInfos where
  artwork : Option String
  url : Option String
deriving Repr, DecidableEq

/-- `src/cache.rs` `CacheEntry`: a value plus its creation time (seconds). -/
structure CacheEntry where
  data : ITunesInfos
  created_at : Nat
deriving Repr, DecidableEq

/-- `src/cache.rs` `Cache` (the `cache_file` path is kept outside the
model; the file itself is the `FileContent` threaded through load/save). -/
structure Cache where
  version : Int
  data : List (String × CacheEntry)
  max_age : Nat
  dirty : Bool
deriving Repr, DecidableEq

/-- `src/cache.rs` `CacheError`. -/
inductive CacheError where
  | FileReadError
  | ParseError
  | VersionMismatch
deriving Repr, DecidableEq

/-- The persisted cache file: absent, unparseable, or a parsed
`{version, data}` document (`created_at` is serialized as unix seconds,
which is the identity in this model). -/
inductive FileContent where
  | missing
  | malformed
  | stored (version : Int) (data : List (String × CacheEntry))
deriving Repr, DecidableEq

/-- `Cache::new` (`src/cache.rs` lines 71-83). -/
def Cache.new : Cache :=
  { version := 3
    data := []
    max_age := 7 * 24 * 60 * 60
    dirty := false }

/-- The predicate of `Cache::cleanup_expired`'s `retain` closure
(`src/cache.rs` lines 105-109): `now.duration_since(created_at)` is `Err`
when `created_at > now`, and `.map(|age| age <= max_age).unwrap_or(false)`
turns that into `false`; so an entry is retained iff its age is computable
and at most `max_age`.  Total boolean function: never panics. -/
def entryLive (max_age now : Nat) (e : CacheEntry) : Bool :=
  decide (e.created_at ≤ now) && decide (now - e.created_at ≤ max_age)

/-- `Cache::cleanup_expired` (`src/cache.rs` lines 103-110). -/
def Cache.cleanup_expired (c : Cache) (now : Nat) : Cache :=
  { c with data := c.data.filter fun kv => entryLive c.max_age now kv.2 }

/-- `HashMap::insert`: replace any existing binding of the key. -/
def insertEntry (key : String) (e : CacheEntry)
    (l : List (String × CacheEntry)) : List (String × CacheEntry) :=
  (key, e) :: l.filter fun kv => !(kv.1 == key)

/-- `Cache::get` (`src/cache.rs` lines 85-88): cleanup first, then look
the key up; the mutated cache is returned alongside the result. -/
def Cache.get (c : Cache) (now : Nat) (key : String) :
    Cache × Option ITunesInfos :=
  let c1 := c.cleanup_expired now
  (c1, (c1.data.lookup key).map CacheEntry.data)

/-- `Cache::set` (`src/cache.rs` lines 90-101): insert with a fresh
timestamp, mark dirty, and run cleanup if more than 1000 entries. -/
def Cache.set (c : Cache) (now : Nat) (key : String) (value : ITunesInfos) :
    Cache :=
  let c1 := { c with data := insertEntry key ⟨value, now⟩ c.data, dirty := true }
  if c1.data.length > 1000 then c1.cleanup_expired now else c1

/-- `Cache::load_cache` (`src/cache.rs` lines 112-131): missing file is
success, parse failure is `ParseError`, version mismatch is
`VersionMismatch` (and the in-memory data is not touched), otherwise the
stored data replaces the in-memory data. -/
def Cache.load_cache (c : Cache) (file : FileContent) :
    Cache × Except CacheError Unit :=
  match file with
  | .missing => (c, .ok ())
  | .malformed => (c, .error .ParseError)
  | .stored v d =>
      if v ≠ c.version then (c, .error .VersionMismatch)
      else ({ c with data := d }, .ok ())

/-- `Cache::save_cache` (`src/cache.rs` lines 133-148): no-op when not
dirty; otherwise cleanup, write `{version, data}`, clear the dirty flag
(directory creation and the write itself are assumed to succeed). -/
def Cache.save_cache (c : Cache) (now : Nat) (file : FileContent) :
    Cache × FileContent × Except CacheError Unit :=
  if !c.dirty then (c, file, .ok ())
  else
    let c1 := c.cleanup_expired now
    ({ c1 with dirty := false }, .stored c1.version c1.data, .ok ())

/-- `Cache::flush` (`src/cache.rs` lines 150-152). -/
def Cache.flush (c : Cache) (now : Nat) (file : FileContent) :
    Cache × FileContent × Except CacheError Unit :=
  c.save_cache now file

/-- `App::new` (`src/main.rs` lines 27-40) builds a fresh cache and runs
`load_cache`, discarding its result (`let _ = cache.load_cache();`): a
load error never aborts startup. -/
def App.new_cache (file : FileContent) : Cache :=
  (Cache.new.load_cache file).1

/-- `src/structs.rs` `MusicError` (payloads flattened to strings). -/
inductive MusicError where
  | ScriptError (e : String)
  | SystemError (e : String)
  | NetworkError (e : String)
  | SerializationError (e : String)
  | UrlParseError (e : String)
  | CacheError (e : String)
  | DiscordError (e : String)
deriving Repr, DecidableEq

/-- `src/structs.rs` `ITunesProps` (the track snapshot; `duration` is an
`f64` in Rust, modelled as `Rat`). -/
structure ITunesProps where
  name : String
  artist : String
  album : String
  duration : Option Rat
deriving Repr, DecidableEq

/-- `src/structs.rs` `ResponseInner`: one iTunes search result. -/
structure ResponseInner where
  artwork_url_100 : Option String
  artwork_url_600 : Option String
  collection_view_url : Option String
deriving Repr, DecidableEq

/-- `src/structs.rs` `PresenceData` (`end` is a Lean keyword, hence
`end_`). -/
structure PresenceData where
  name : String
  artist : String
  album : String
  artwork_url : Option String
  share_url : Option String
  start : Option Int
  end_ : Option Int
deriving Repr, DecidableEq

/-- `PresenceData::new` (`src/structs.rs` lines 136-146). -/
def PresenceData.new (props : ITunesProps) : PresenceData :=
  { name := props.name
    artist := props.artist
    album := props.album
    artwork_url := none
    share_url := none
    start := none
    end_ := none }

/-- `PresenceData::set_timing` (`src/structs.rs` lines 148-151). -/
def PresenceData.set_timing (p : PresenceData) (s e : Int) : PresenceData :=
  { p with start := some s, end_ := some e }

/-- `PresenceData::set_artwork_info` (`src/structs.rs` lines 153-156). -/
def PresenceData.set_artwork_info (p : PresenceData) (infos : ITunesInfos) :
    PresenceData :=
  { p with artwork_url := infos.artwork, share_url := infos.url }

/-- `src/structs.rs` `AppState`. -/
inductive AppState where
  | Idle
  | Presence (data : PresenceData)
deriving Repr, DecidableEq

/-- Rust `as i64` on a non-NaN `f64`: truncation toward zero
(`Int.div` is T-division). -/
def f64ToI64 (q : Rat) : Int :=
  Int.tdiv q.num q.den

/-- The search API as seen by the resolver: the album flag determines
the request (`entity=album` present or not); the response is either a
transport/parse error or the `results` array. -/
def SearchApi : Type :=
  Bool → Except MusicError (List ResponseInner)

/-- The `album = false` instance of `App::search_album_artwork`
(`src/main.rs` lines 56-103): same body with `album` fixed to `false`,
in which the empty-result branch returns `Ok(None)` with no further
request.  The Rust function is recursive with the album flag strictly
decreasing (`true` calls itself once with `false`), so the general
function below is its one-step unrolling through this instance. -/
def App.search_album_artwork_unscoped (api : SearchApi) (now : Nat)
    (props : ITunesProps) (c : Cache) :
    Cache × List Bool × Except MusicError (Option ITunesInfos) :=
  let query := props.artist ++ " " ++ props.name
  match c.get now query with
  | (c1, some infos) => (c1, [], .ok (some infos))
  | (c1, none) =>
      match api false with
      | .error e => (c1, [false], .error e)
      | .ok [] => (c1, [false], .ok none)
      | .ok (res :: _) =>
          let artwork :=
            if res.artwork_url_600.isSome then res.artwork_url_600
            else res.artwork_url_100
          let infos : ITunesInfos := ⟨artwork, res.collection_view_url⟩
          (c1.set now query infos, [false], .ok (some infos))

/-- `App::search_album_artwork` (`src/main.rs` lines 56-103).  Besides
the updated cache and the result it returns the album-flags of the
search requests actually issued (in order), so the fallback behaviour is
observable.  The empty-result album-scoped case retries once without the
album filter — the source's `Box::pin(self.search_album_artwork(props,
false))` on the then-current cache state. -/
def App.search_album_artwork (api : SearchApi) (now : Nat)
    (props : ITunesProps) (album : Bool) (c : Cache) :
    Cache × List Bool × Except MusicError (Option ITunesInfos) :=
  let query := props.artist ++ " " ++ props.name
  match c.get now query with
  | (c1, some infos) => (c1, [], .ok (some infos))
  | (c1, none) =>
      match api album with
      | .error e => (c1, [album], .error e)
      | .ok [] =>
          match album with
          | true =>
              let r := App.search_album_artwork_unscoped api now props c1
              (r.1, true :: r.2.1, r.2.2)
          | false => (c1, [false], .ok none)
      | .ok (res :: _) =>
          let artwork :=
            if res.artwork_url_600.isSome then res.artwork_url_600
            else res.artwork_url_100
          let infos : ITunesInfos := ⟨artwork, res.collection_view_url⟩
          (c1.set now query infos, [album], .ok (some infos))

/-- The player-automation layer: the three scripts `update_presence`
runs, each of which can fail (`execute_script` in `src/util.rs`). -/
structure Player where
  get_state : Except MusicError String
  get_props : Except MusicError ITunesProps
  get_position : Except MusicError Rat

/-- Lines 127-133 of `src/main.rs`: if the album is non-empty, try the
resolver (album-preferred); only an `Ok(Some(infos))` outcome attaches
artwork, but the cache mutation of the attempt is kept in every case. -/
def App.attach_artwork (api : SearchApi) (now_secs : Nat)
    (props : ITunesProps) (pd : PresenceData) (c : Cache) :
    Cache × Except MusicError AppState :=
  if props.album ≠ "" then
    match App.search_album_artwork api now_secs props true c with
    | (c1, _, .ok (some infos)) =>
        (c1, .ok (.Presence (pd.set_artwork_info infos)))
    | (c1, _, _) => (c1, .ok (.Presence pd))
  else (c, .ok (.Presence pd))

/-- `App::update_presence` (`src/main.rs` lines 105-134).  `now_secs` is
the wall clock sampled at evaluation time, in whole seconds
(`SystemTime::now().duration_since(UNIX_EPOCH).as_secs()`); the code
computes `start = now_secs*1000 - (position*1000.0) as i64`. -/
def App.update_presence (api : SearchApi) (player : Player)
    (now_secs : Nat) (c : Cache) : Cache × Except MusicError AppState :=
  match player.get_state with
  | .error e => (c, .error e)
  | .ok st =>
      if st ≠ "playing" then (c, .ok .Idle)
      else
        match player.get_props with
        | .error e => (c, .error e)
        | .ok props =>
            match props.duration with
            | some duration =>
                match player.get_position with
                | .error e => (c, .error e)
                | .ok pos =>
                    let start : Int :=
                      (now_secs : Int) * 1000 - f64ToI64 (pos * 1000)
                    let end_ : Int := start + f64ToI64 (duration * 1000)
                    let pd := (PresenceData.new props).set_timing start end_
                    App.attach_artwork api now_secs props pd c
            | none =>
                App.attach_artwork api now_secs props (PresenceData.new props) c


/-- The Discord activity assembled by `App::handle_state`
(`src/main.rs` lines 158-181): the `discord_rich_presence` builder
fields actually used.  `assets`/`large_image` are optional in the
library; the code always sets them. -/
structure Assets where
  large_image : Option String
deriving Repr, DecidableEq

/-- Discord activity payload as built in `App::handle_state`. -/
structure Activity where
  details : String
  state : Option String
  timestamps : Option (Int × Int)
  assets : Option Assets
  buttons : List (String × String)
deriving Repr, DecidableEq

/-- The activity-building block of `App::handle_state`
(`src/main.rs` lines 158-181): details from the track name, state only
for a non-empty artist, timestamps only when both ends are known, the
large image falling back to the literal `"appicon"` asset, and one
share button when a share URL exists. -/
def App.build_activity (data : PresenceData) : Activity :=
  { details := data.name
    state := if data.artist ≠ "" then some data.artist else none
    timestamps :=
      match data.start, data.end_ with
      | some s, some e => some (s, e)
      | _, _ => none
    assets := some ⟨some (data.artwork_url.getD "appicon")⟩
    buttons :=
      match data.share_url with
      | some url => [("Listen on Apple Music", url)]
      | none => [] }

/-- The presence sink (Discord IPC client): whether `clear_activity`
and `set_activity` succeed when called. -/
structure Sink where
  clear_ok : Bool
  set_ok : Bool
deriving Repr, DecidableEq

/-- A call made against the presence sink. -/
inductive SinkCall where
  | clearActivity
  | setActivity (a : Activity)
deriving Repr, DecidableEq

/-- `App::handle_state` (`src/main.rs` lines 136-195): returns the
updated cache, the sink calls issued (in order), and the result —
`ok true` on success, `ok false` when a sink call failed (connection
loss), `error e` when a business-logic step failed (`?` on `is_open`
or `update_presence`). -/
def App.handle_state (api : SearchApi) (is_open : Except MusicError Bool)
    (player : Player) (sink : Sink) (now_secs : Nat) (c : Cache) :
    Cache × List SinkCall × Except MusicError Bool :=
  match is_open with
  | .error e => (c, [], .error e)
  | .ok false =>
      (c, [.clearActivity], if sink.clear_ok then .ok true else .ok false)
  | .ok true =>
      match App.update_presence api player now_secs c with
      | (c1, .error e) => (c1, [], .error e)
      | (c1, .ok .Idle) =>
          (c1, [.clearActivity], if sink.clear_ok then .ok true else .ok false)
      | (c1, .ok (.Presence data)) =>
          let act := App.build_activity data
          (c1, [.setActivity act], if sink.set_ok then .ok true else .ok false)

/-- The environment of one iteration of the `App::run` loop
(`src/main.rs` lines 220-247): whether a reconnect attempt would
succeed, and the tick's external inputs. -/
structure TickEnv where
  reconnect_ok : Bool
  is_open : Except MusicError Bool
  player : Player
  sink : Sink
  api : SearchApi
  now_secs : Nat

/-- Observable outcome of one iteration of the `App::run` while-loop. -/
structure IterResult where
  connected : Bool
  cache : Cache
  sink_calls : List SinkCall
  reconnect_attempts : Nat
  sleep_secs : Nat

/-- Lines 231-246 of `src/main.rs`: the `handle_state` match, reached
only with the connection up (`attempts` records how many reconnect
attempts preceded it in this iteration). -/
def App.run_tick (env : TickEnv) (attempts : Nat) (c : Cache) : IterResult :=
  match App.handle_state env.api env.is_open env.player env.sink env.now_secs c with
  | (c1, calls, .ok true) =>
      { connected := true, cache := c1, sink_calls := calls
        reconnect_attempts := attempts, sleep_secs := 1 }
  | (c1, calls, .ok false) =>
      { connected := false, cache := c1, sink_calls := calls
        reconnect_attempts := attempts, sleep_secs := 15 }
  | (c1, calls, .error _) =>
      { connected := true, cache := c1, sink_calls := calls
        reconnect_attempts := attempts, sleep_secs := 1 }

/-- One iteration of the `while running` body of `App::run`
(`src/main.rs` lines 220-247): when disconnected, one `try_reconnect`;
on failure sleep 15 s and `continue` (no tick); on success the tick
runs in the same iteration.  A tick's `Ok(true)` sleeps 1 s,
`Ok(false)` flips to disconnected and sleeps 15 s, `Err` logs and
sleeps 1 s with the connection state untouched. -/
def App.loop_iter (env : TickEnv) (connected : Bool) (c : Cache) :
    IterResult :=
  if !connected then
    if env.reconnect_ok then App.run_tick env 1 c
    else
      { connected := false, cache := c, sink_calls := []
        reconnect_attempts := 1, sleep_secs := 15 }
  else App.run_tick env 0 c

/-- The `while running` loop of `App::run`: one `TickEnv` per iteration
for which the stop flag still reads true; the loop body contains no
`break` or early `return`, so every listed iteration runs. -/
def App.run_loop (envs : List TickEnv) (connected : Bool) (c : Cache) :
    Bool × Cache × List IterResult :=
  match envs with
  | [] => (connected, c, [])
  | env :: rest =>
      let r := App.loop_iter env connected c
      let t := App.run_loop rest r.connected r.cache
      (t.1, t.2.1, r :: t.2.2)

/-! ### Helper lemmas on the cache operations -/

theorem Cache.set_dirty (c : Cache) (now : Nat) (k : String) (v : ITunesInfos) :
    (c.set now k v).dirty = true := by
  simp only [Cache.set]
  split <;> rfl

theorem Cache.set_version (c : Cache) (now : Nat) (k : String) (v : ITunesInfos) :
    (c.set now k v).version = c.version := by
  simp only [Cache.set]
  split <;> rfl

theorem Cache.set_max_age (c : Cache) (now : Nat) (k : String) (v : ITunesInfos) :
    (c.set now k v).max_age = c.max_age := by
  simp only [Cache.set]
  split <;> rfl

theorem Cache.cleanup_idem (c : Cache) (now : Nat) :
    (c.cleanup_expired now).cleanup_expired now = c.cleanup_expired now := by
  simp [Cache.cleanup_expired, List.filter_filter]

/-- `Cache::set` always places the fresh entry at the head of the
association list: the freshly created entry is live at its own creation
time, so the high-water-mark cleanup cannot remove it. -/
theorem Cache.set_data_head (c : Cache) (now : Nat) (k : String)
    (v : ITunesInfos) :
    ∃ t, (c.set now k v).data = (k, ⟨v, now⟩) :: t ∧
      ∀ kv ∈ t, kv.1 ≠ k := by
  simp only [Cache.set, insertEntry]
  have hlive : entryLive c.max_age now ⟨v, now⟩ = true := by
    simp [entryLive]
  split
  · refine ⟨(c.data.filter fun kv => !(kv.1 == k)).filter
      fun kv => entryLive c.max_age now kv.2, ?_, ?_⟩
    · simp [Cache.cleanup_expired, List.filter_cons, hlive]
    · intro kv hkv
      have := (List.mem_filter.mp (List.mem_filter.mp hkv).1).2
      simpa using this
  · refine ⟨c.data.filter fun kv => !(kv.1 == k), rfl, ?_⟩
    intro kv hkv
    have := (List.mem_filter.mp hkv).2
    simpa using this

/-- Looking a key up after a `filter` that rejects every binding of that
key yields nothing. -/
theorem lookup_filter_none (l : List (String × CacheEntry)) (k : String)
    (p : String × CacheEntry → Bool)
    (h : ∀ e, (k, e) ∈ l → p (k, e) = false) :
    (l.filter p).lookup k = none := by
  induction l with
  | nil => rfl
  | cons hd tl ih =>
      obtain ⟨k', e'⟩ := hd
      have ih' := ih fun e he => h e (List.mem_cons_of_mem _ he)
      by_cases hk : k = k'
      · subst hk
        have hp := h e' (List.mem_cons_self _ _)
        simp [List.filter_cons, hp, ih']
      · cases hp : p (k', e') <;>
          simp [List.filter_cons, hp, ih', List.lookup, beq_false_of_ne hk]

/-- With distinct keys, a successful lookup pins down every binding of
that key. -/
theorem mem_eq_of_lookup_nodup (l : List (String × CacheEntry))
    (hnd : (l.map Prod.fst).Nodup) {k : String} {e e' : CacheEntry}
    (hl : l.lookup k = some e) (hm : (k, e') ∈ l) : e' = e := by
  induction l with
  | nil => simp at hm
  | cons hd tl ih =>
      obtain ⟨k', v'⟩ := hd
      rw [List.map_cons, List.nodup_cons] at hnd
      rcases List.mem_cons.mp hm with hm1 | hm1
      · obtain ⟨h1, h2⟩ : k = k' ∧ e' = v' := by
          simpa [Prod.ext_iff] using hm1
        subst h1
        rw [List.lookup_cons_self] at hl
        simp only [Option.some.injEq] at hl
        exact h2.trans hl
      · have hk : (k == k') = false := by
          apply beq_false_of_ne
          rintro rfl
          exact hnd.1 (by simpa using List.mem_map_of_mem Prod.fst hm1)
        simp only [List.lookup, hk] at hl
        exact ih hnd.2 hl hm1

/-! ### Claim theorems -/

/-- C7: loading a persisted file whose `version` differs from the
in-process version (3) returns the `VersionMismatch` error and leaves
the freshly constructed in-memory store empty — `App::new` ignores the
load result, so startup proceeds with the empty cache; and loading a
missing file succeeds with an empty store. -/
theorem load_version_gate :
    (∀ (v : Int) (d : List (String × CacheEntry)), v ≠ 3 →
      Cache.new.load_cache (.stored v d) = (Cache.new, .error .VersionMismatch) ∧
      App.new_cache (.stored v d) = Cache.new ∧
      (App.new_cache (.stored v d)).data = []) ∧
    (Cache.new.load_cache .missing = (Cache.new, .ok ()) ∧
      (App.new_cache .missing).data = []) := by
  constructor
  · intro v d hv
    have h : Cache.new.load_cache (.stored v d)
        = (Cache.new, .error .VersionMismatch) := by
      simp [Cache.load_cache, Cache.new, hv]
    refine ⟨h, ?_, ?_⟩
    · unfold App.new_cache
      rw [h]
    · unfold App.new_cache
      rw [h]
      rfl
  · exact ⟨rfl, rfl⟩

/-- C7 witness: version 2 against in-process version 3. -/
theorem load_version_gate_witness :
    Cache.new.load_cache (.stored 2 []) = (Cache.new, .error .VersionMismatch) ∧
    App.new_cache (.stored 2 []) = Cache.new ∧
    (App.new_cache (.stored 2 [])).data = [] :=
  load_version_gate.1 2 [] (by decide)

/-- C8: `flush` on a non-dirty cache performs no I/O (the file slot is
untouched) and succeeds; after any `set` the cache is dirty, so `flush`
writes `{version, live entries}` and clears the dirty flag; and loading
that file into a fresh cache of the same version (3) succeeds and
reproduces exactly the live (non-expired-at-flush-time) entries. -/
theorem cache_flush_roundtrip :
    (∀ (c : Cache) (now : Nat) (file : FileContent), c.dirty = false →
      c.flush now file = (c, file, .ok ())) ∧
    (∀ (c : Cache) (now now' : Nat) (k : String) (v : ITunesInfos)
        (file : FileContent), c.version = 3 →
      ((c.set now' k v).flush now file).2.2 = .ok () ∧
      ((c.set now' k v).flush now file).1.dirty = false ∧
      ((c.set now' k v).flush now file).2.1
        = .stored 3 ((c.set now' k v).cleanup_expired now).data ∧
      (Cache.new.load_cache ((c.set now' k v).flush now file).2.1).2 = .ok () ∧
      (Cache.new.load_cache ((c.set now' k v).flush now file).2.1).1.data
        = ((c.set now' k v).cleanup_expired now).data) := by
  constructor
  · intro c now file hdirty
    simp [Cache.flush, Cache.save_cache, hdirty]
  · intro c now now' k v file hver
    have hdirty : (c.set now' k v).dirty = true := Cache.set_dirty ..
    have hver' : (c.set now' k v).version = 3 := by
      rw [Cache.set_version, hver]
    have hflush : (c.set now' k v).flush now file
        = ({ (c.set now' k v).cleanup_expired now with dirty := false },
           .stored 3 ((c.set now' k v).cleanup_expired now).data, .ok ()) := by
      simp [Cache.flush, Cache.save_cache, hdirty, Cache.cleanup_expired, hver']
    rw [hflush]
    refine ⟨rfl, rfl, rfl, ?_, ?_⟩ <;> simp [Cache.load_cache, Cache.new]

/-- C8 witness: a fresh cache (not dirty, no-I/O clause) and a fresh
cache after one `set` (flush/reload clause), both at concrete times. -/
theorem cache_flush_roundtrip_witness :
    Cache.new.flush 5 .missing = (Cache.new, .missing, .ok ()) ∧
    ((Cache.new.set 5 "k" ⟨some "a", none⟩).flush 6 .missing).2.2 = .ok () ∧
    (Cache.new.load_cache
        ((Cache.new.set 5 "k" ⟨some "a", none⟩).flush 6 .missing).2.1).1.data
      = ((Cache.new.set 5 "k" ⟨some "a", none⟩).cleanup_expired 6).data := by
  refine ⟨cache_flush_roundtrip.1 Cache.new 5 .missing (by decide), ?_, ?_⟩
  · exact (cache_flush_roundtrip.2 Cache.new 6 5 "k" ⟨some "a", none⟩ .missing
      (by decide)).1
  · exact (cache_flush_roundtrip.2 Cache.new 6 5 "k" ⟨some "a", none⟩ .missing
      (by decide)).2.2.2.2

/-- C10: the activity built by `App::handle_state` always carries a
large image: when no artwork URL was resolved it is the literal asset
string `"appicon"`, and in general it is the artwork URL with
`"appicon"` as the fallback. -/
theorem activity_large_image_fallback :
    (∀ d : PresenceData, d.artwork_url = none →
      (App.build_activity d).assets = some ⟨some "appicon"⟩) ∧
    (∀ d : PresenceData,
      (App.build_activity d).assets
        = some ⟨some (d.artwork_url.getD "appicon")⟩) := by
  constructor
  · intro d h
    simp [App.build_activity, h]
  · intro d
    rfl

/-- C10 witness: a presence value with no artwork URL. -/
theorem activity_large_image_fallback_witness :
    (App.build_activity
        ⟨"Song", "Band", "LP", none, none, none, none⟩).assets
      = some ⟨some "appicon"⟩ :=
  activity_large_image_fallback.1 ⟨"Song", "Band", "LP", none, none, none, none⟩
    rfl

/-- A trivial player for witnesses: every script fails (never reached in
the scenarios that use it). -/
def idlePlayer : Player :=
  ⟨.error (.ScriptError "unused"), .error (.ScriptError "unused"),
   .error (.ScriptError "unused")⟩

/-- A search API returning no results for either request shape. -/
def emptyApi : SearchApi := fun _ => .ok []

/-- C3: an iteration entered in the Disconnected state with a failing
reconnect makes exactly one reconnect attempt, performs no sink call at
all (no push, no clear), and sleeps the 15-second backoff — so while
disconnected there is at most one reconnect attempt per 15-second
interval and zero presence work; and an iteration entered Connected
whose tick reports a sink failure (`Ok(false)`) leaves the loop
Disconnected and goes directly to the 15-second wait, not the normal
1-second wait. -/
theorem supervisor_disconnected_backoff :
    (∀ (env : TickEnv) (c : Cache), env.reconnect_ok = false →
      App.loop_iter env false c =
        { connected := false, cache := c, sink_calls := []
          reconnect_attempts := 1, sleep_secs := 15 }) ∧
    (∀ (env : TickEnv) (c c1 : Cache) (calls : List SinkCall),
      App.handle_state env.api env.is_open env.player env.sink env.now_secs c
          = (c1, calls, .ok false) →
      App.loop_iter env true c =
        { connected := false, cache := c1, sink_calls := calls
          reconnect_attempts := 0, sleep_secs := 15 }) := by
  constructor
  · intro env c h
    simp [App.loop_iter, h]
  · intro env c c1 calls h
    simp [App.loop_iter, App.run_tick, h]

/-- C3 witness: a failed reconnect while disconnected, and a closed-sink
tick (`clear_activity` fails with the player closed) while connected. -/
theorem supervisor_disconnected_backoff_witness :
    App.loop_iter
        ⟨false, .ok false, idlePlayer, ⟨false, false⟩, emptyApi, 0⟩ false Cache.new
      = { connected := false, cache := Cache.new, sink_calls := []
          reconnect_attempts := 1, sleep_secs := 15 } ∧
    App.loop_iter
        ⟨true, .ok false, idlePlayer, ⟨false, false⟩, emptyApi, 0⟩ true Cache.new
      = { connected := false, cache := Cache.new
          sink_calls := [.clearActivity]
          reconnect_attempts := 0, sleep_secs := 15 } :=
  ⟨supervisor_disconnected_backoff.1
      ⟨false, .ok false, idlePlayer, ⟨false, false⟩, emptyApi, 0⟩ Cache.new rfl,
   supervisor_disconnected_backoff.2
      ⟨true, .ok false, idlePlayer, ⟨false, false⟩, emptyApi, 0⟩ Cache.new
      Cache.new [.clearActivity] rfl⟩

/-- C9: an iteration whose tick fails with a business-logic error
(`handle_state` returns `Err`) keeps the connection state Connected
(never a Connected-to-Disconnected transition), sleeps the normal
1 second and moves on; and the loop body has no exit path of its own:
`run_loop` performs one iteration per stop-flag reading regardless of
any per-tick errors, so an error never terminates the loop. -/
theorem tick_error_resilience :
    (∀ (env : TickEnv) (c c1 : Cache) (calls : List SinkCall)
        (e : MusicError),
      App.handle_state env.api env.is_open env.player env.sink env.now_secs c
          = (c1, calls, .error e) →
      App.loop_iter env true c =
        { connected := true, cache := c1, sink_calls := calls
          reconnect_attempts := 0, sleep_secs := 1 }) ∧
    (∀ (envs : List TickEnv) (connected : Bool) (c : Cache),
      (App.run_loop envs connected c).2.2.length = envs.length) := by
  constructor
  · intro env c c1 calls e h
    simp [App.loop_iter, App.run_tick, h]
  · intro envs
    induction envs with
    | nil => intro connected c; rfl
    | cons env rest ih =>
        intro connected c
        simp [App.run_loop, ih]

/-- C9 witness: a tick whose `is_open` automation script fails. -/
theorem tick_error_resilience_witness :
    App.loop_iter
        ⟨true, .error (.ScriptError "automation"), idlePlayer, ⟨true, true⟩,
          emptyApi, 0⟩ true Cache.new
      = { connected := true, cache := Cache.new, sink_calls := []
          reconnect_attempts := 0, sleep_secs := 1 } :=
  tick_error_resilience.1
    ⟨true, .error (.ScriptError "automation"), idlePlayer, ⟨true, true⟩,
      emptyApi, 0⟩ Cache.new Cache.new [] (.ScriptError "automation") rfl

/-- The persisted entry map of the cache file, if the file holds one. -/
def persistedData : FileContent → Option (List (String × CacheEntry))
  | .stored _ d => some d
  | _ => none

/-- The claimed dirty-flag invariant of the spec (section 3, cache
invariant 2): `dirty` is true iff the in-memory entry map differs from
the last persisted snapshot. -/
def DirtyInv (c : Cache) (file : FileContent) : Prop :=
  c.dirty = true ↔ persistedData file ≠ some c.data

/-- A cache state that agrees with its persisted snapshot (as after a
flush): one entry created at time 0, dirty flag clear. -/
def snapCache : Cache :=
  { version := 3
    data := [("k", ⟨⟨some "a", none⟩, 0⟩)]
    max_age := 604800
    dirty := false }

/-- The persisted snapshot matching `snapCache`. -/
def snapFile : FileContent :=
  .stored 3 [("k", ⟨⟨some "a", none⟩, 0⟩)]

/-- C4 counterexample: `Cache::get` does not preserve the claimed
equivalence.  From `snapCache`/`snapFile` (which satisfy the invariant),
a `get` at time 700000 — past the 604800-second `max_age` — purges the
expired entry, so the in-memory map now differs from the persisted
snapshot while `dirty` is still false. -/
theorem dirty_inv_get_counterexample :
    DirtyInv snapCache snapFile ∧
    ¬ DirtyInv (snapCache.get 700000 "k").1 snapFile := by
  constructor
  · rw [DirtyInv]
    decide
  · rw [DirtyInv]
    decide

/-- C4 amended: `dirty` tracks unpersisted writes only — every `set`
sets it, and a successful `save_cache` clears it and re-establishes
agreement between memory and the persisted snapshot; but it is not
equivalent to "memory differs from the snapshot", because the expiry
cleanup inside `get` can change the in-memory map while leaving `dirty`
false (see the counterexample). -/
theorem dirty_flag_semantics :
    (∀ (c : Cache) (now : Nat) (k : String) (v : ITunesInfos),
      (c.set now k v).dirty = true) ∧
    (∀ (c : Cache) (now : Nat) (file : FileContent), c.dirty = true →
      (c.save_cache now file).2.2 = .ok () ∧
      (c.save_cache now file).1.dirty = false ∧
      persistedData (c.save_cache now file).2.1
        = some (c.save_cache now file).1.data) := by
  constructor
  · exact Cache.set_dirty
  · intro c now file h
    simp [Cache.save_cache, h, persistedData]

/-- C4 amended-claim witness: a dirty one-entry cache saved at time 1. -/
theorem dirty_flag_semantics_witness :
    (Cache.new.set 1 "k" ⟨some "a", none⟩).dirty = true ∧
    (({ Cache.new with dirty := true } : Cache).save_cache 1 .missing).2.2
      = .ok () ∧
    persistedData
        (({ Cache.new with dirty := true } : Cache).save_cache 1 .missing).2.1
      = some
        (({ Cache.new with dirty := true } : Cache).save_cache 1 .missing).1.data :=
  ⟨dirty_flag_semantics.1 Cache.new 1 "k" ⟨some "a", none⟩,
   (dirty_flag_semantics.2 { Cache.new with dirty := true } 1 .missing rfl).1,
   (dirty_flag_semantics.2 { Cache.new with dirty := true } 1 .missing rfl).2.2⟩

/-- C2: `set(k, v)` followed by `get(k)` with the clock advanced by at
most `max_age` returns `v`; and with distinct keys (as a `HashMap`
guarantees), if the entry stored under `k` is expired — its age exceeds
`max_age`, or its `created_at` lies in the future so the age is not
computable — then `get(k)` returns `none`.  The expiry check `entryLive`
is a total boolean function (the `unwrap_or(false)` semantics), so it
never panics. -/
theorem cache_ttl_get_set :
    (∀ (c : Cache) (now now' : Nat) (k : String) (v : ITunesInfos),
      now ≤ now' → now' - now ≤ c.max_age →
      ((c.set now k v).get now' k).2 = some v) ∧
    (∀ (c : Cache) (now : Nat) (k : String) (e : CacheEntry),
      (c.data.map Prod.fst).Nodup →
      c.data.lookup k = some e →
      (c.max_age < now - e.created_at ∨ now < e.created_at) →
      (c.get now k).2 = none) := by
  constructor
  · intro c now now' k v h1 h2
    obtain ⟨t, ht, -⟩ := Cache.set_data_head c now k v
    have hma := Cache.set_max_age c now k v
    simp only [Cache.get, Cache.cleanup_expired, hma, ht]
    rw [List.filter_cons_of_pos]
    · simp [List.lookup_cons_self]
    · simp only [entryLive, Bool.and_eq_true, decide_eq_true_eq]
      exact ⟨h1, h2⟩
  · intro c now k e hnd hl hexp
    have hdead : entryLive c.max_age now e = false := by
      apply Bool.eq_false_iff.mpr
      intro htrue
      simp only [entryLive, Bool.and_eq_true, decide_eq_true_eq] at htrue
      rcases hexp with h | h <;> omega
    have hall : ∀ e', (k, e') ∈ c.data →
        entryLive c.max_age now e' = false := by
      intro e' he'
      rw [mem_eq_of_lookup_nodup c.data hnd hl he']
      exact hdead
    simp only [Cache.get, Cache.cleanup_expired]
    rw [lookup_filter_none _ _ _ (fun e' he' => hall e' he')]
    rfl

/-- C2 witness: a set-then-get one second later, and a get of an entry
created at time 0 once 700000 seconds (more than 7 days) have passed. -/
theorem cache_ttl_get_set_witness :
    ((Cache.new.set 5 "k" ⟨some "a", none⟩).get 6 "k").2
      = some ⟨some "a", none⟩ ∧
    (snapCache.get 700000 "k").2 = none :=
  ⟨cache_ttl_get_set.1 Cache.new 5 6 "k" ⟨some "a", none⟩ (by decide) (by decide),
   cache_ttl_get_set.2 snapCache 700000 "k" ⟨⟨some "a", none⟩, 0⟩
     (by decide) (by decide) (Or.inl (by decide))⟩

/-- A cache miss means the cleaned-up store has no binding for the key. -/
theorem get_none_lookup (c : Cache) (now : Nat) (k : String)
    (h : (c.get now k).2 = none) :
    (c.cleanup_expired now).data.lookup k = none := by
  simpa [Cache.get] using h

/-- The fallback (unscoped) search issues at most one request. -/
theorem unscoped_trace_len (api : SearchApi) (now : Nat)
    (props : ITunesProps) (c : Cache) :
    (App.search_album_artwork_unscoped api now props c).2.1.length ≤ 1 := by
  simp only [App.search_album_artwork_unscoped, Cache.get]
  rcases hl : (c.cleanup_expired now).data.lookup
      (props.artist ++ " " ++ props.name) with _ | e
  · rcases hf : api false with e | ls
    · simp [hl, hf]
    · cases ls <;> simp [hl, hf]
  · simp [hl]

/-- The track snapshot of the spec's end-to-end scenario. -/
def bandSongProps : ITunesProps :=
  ⟨"Song", "Band", "LP", some 200⟩

/-- C5: on a cache miss whose album-scoped search comes back empty, the
resolver issues exactly one further request, without the album filter —
the request trace is `[true, false]` whatever the fallback returns; and
every resolve issues at most two requests (the fallback depth is
bounded by one, and the function is total, so resolve terminates). -/
theorem resolver_fallback_once :
    (∀ (api : SearchApi) (now : Nat) (props : ITunesProps) (c : Cache),
      (c.get now (props.artist ++ " " ++ props.name)).2 = none →
      api true = .ok [] →
      (App.search_album_artwork api now props true c).2.1 = [true, false]) ∧
    (∀ (api : SearchApi) (now : Nat) (props : ITunesProps) (album : Bool)
        (c : Cache),
      (App.search_album_artwork api now props album c).2.1.length ≤ 2) := by
  constructor
  · intro api now props c hmiss hapi
    have hlk := get_none_lookup c now _ hmiss
    rcases hfa : api false with e | ls
    · simp [App.search_album_artwork, App.search_album_artwork_unscoped,
        Cache.get, Cache.cleanup_idem, hlk, hapi, hfa]
    · cases ls <;>
        simp [App.search_album_artwork, App.search_album_artwork_unscoped,
          Cache.get, Cache.cleanup_idem, hlk, hapi, hfa]
  · intro api now props album c
    cases album
    · simp only [App.search_album_artwork, Cache.get]
      rcases hl : (c.cleanup_expired now).data.lookup
          (props.artist ++ " " ++ props.name) with _ | e
      · rcases hf : api false with e | ls
        · simp [hl, hf]
        · cases ls <;> simp [hl, hf]
      · simp [hl]
    · simp only [App.search_album_artwork, Cache.get]
      rcases hl : (c.cleanup_expired now).data.lookup
          (props.artist ++ " " ++ props.name) with _ | e
      · rcases hf : api true with e | ls
        · simp [hl, hf]
        · cases ls with
          | nil =>
              have := unscoped_trace_len api now props (c.cleanup_expired now)
              simp [hl, hf]
              omega
          | cons r rest => simp [hl, hf]
      · simp [hl]

/-- C5 witness: fresh cache, scenario snapshot, an API that returns no
results for either request shape. -/
theorem resolver_fallback_once_witness :
    (App.search_album_artwork emptyApi 0 bandSongProps true Cache.new).2.1
      = [true, false] ∧
    (App.search_album_artwork emptyApi 0 bandSongProps true Cache.new).2.1.length
      ≤ 2 :=
  ⟨resolver_fallback_once.1 emptyApi 0 bandSongProps Cache.new rfl rfl,
   resolver_fallback_once.2 emptyApi 0 bandSongProps true Cache.new⟩

/-- C6 counterexample, refuting the parenthetical "the cache is
unchanged": with the expired entry of `snapCache` in place, a query
for which both searches return empty still changes the cache — the
read-through `get` purges the expired entry — even though the result
is success-with-no-metadata and nothing is stored under the query key. -/
theorem resolver_negative_cache_changes :
    (App.search_album_artwork emptyApi 700000 bandSongProps true snapCache).2.2
      = .ok none ∧
    (App.search_album_artwork emptyApi 700000 bandSongProps true snapCache).1
      ≠ snapCache := by
  constructor
  · rfl
  · decide

/-- C6 amended: for a query missing from the cache for which both the
album-scoped and the fallback unscoped search return empty result sets,
the resolver returns success with no metadata (not an error) and the
cache afterwards contains no entry under that query's key — nothing is
cached for it; the cache itself may still change, because the
read-through `get` purges expired entries (counterexample above). -/
theorem resolver_negative_nocache :
    ∀ (api : SearchApi) (now : Nat) (props : ITunesProps) (c : Cache),
      (c.get now (props.artist ++ " " ++ props.name)).2 = none →
      api true = .ok [] → api false = .ok [] →
      (App.search_album_artwork api now props true c).2.2 = .ok none ∧
      (App.search_album_artwork api now props true c).1.data.lookup
        (props.artist ++ " " ++ props.name) = none := by
  intro api now props c hmiss hat haf
  have hlk := get_none_lookup c now _ hmiss
  constructor <;>
    simp [App.search_album_artwork, App.search_album_artwork_unscoped,
      Cache.get, Cache.cleanup_idem, hlk, hat, haf]

/-- C6 amended-claim witness: fresh cache, scenario snapshot, an API
with no results for either request shape. -/
theorem resolver_negative_nocache_witness :
    (App.search_album_artwork emptyApi 0 bandSongProps true Cache.new).2.2
      = .ok none ∧
    (App.search_album_artwork emptyApi 0 bandSongProps true Cache.new).1.data.lookup
      "Band Song" = none :=
  resolver_negative_nocache emptyApi 0 bandSongProps Cache.new rfl rfl rfl

/-- The player snapshot of the spec's end-to-end scenario: state
"playing", the `bandSongProps` track (duration 200 s), position 10 s. -/
def scenarioPlayer : Player :=
  ⟨.ok "playing", .ok bandSongProps, .ok 10⟩

/-- The search API of the end-to-end scenario: exactly one album-scoped
result carrying `artworkUrl600` and `collectionViewUrl`. -/
def scenarioApi : SearchApi := fun album =>
  if album then .ok [⟨none, some "https://img/1", some "https://link/1"⟩]
  else .ok []

/-- C1: the end-to-end scenario.  With the player reporting
`{state: "playing", name: "Song", artist: "Band", album: "LP",
duration: 200, position: 10}`, wall-clock `T = 1000·t` milliseconds
(the code samples whole seconds `t` and multiplies by 1000), an empty
cache, and any search API whose album-scoped response is exactly one
result with `artworkUrl600 = "https://img/1"` and `collectionViewUrl =
"https://link/1"`, the derived state is `Presence` with name "Song",
artist "Band", that artwork and share URL, `start = T - 10000` and
`end = T + 190000`; and afterwards the cache maps "Band Song" to
`{artwork: Some("https://img/1"), url: Some("https://link/1")}`. -/
theorem end_to_end_scenario (api : SearchApi) (t : Nat) (a100 : Option String)
    (h : api true = .ok [⟨a100, some "https://img/1", some "https://link/1"⟩]) :
    (App.update_presence api scenarioPlayer t Cache.new).2
      = .ok (.Presence
        { name := "Song", artist := "Band", album := "LP"
          artwork_url := some "https://img/1"
          share_url := some "https://link/1"
          start := some ((t : Int) * 1000 - 10000)
          end_ := some ((t : Int) * 1000 + 190000) }) ∧
    ((App.update_presence api scenarioPlayer t Cache.new).1.data.lookup
        "Band Song").map CacheEntry.data
      = some ⟨some "https://img/1", some "https://link/1"⟩ := by
  have h10 : f64ToI64 ((10 : Rat) * 1000) = 10000 := by
    have e : (10 : Rat) * 1000 = 10000 := by norm_num
    rw [f64ToI64, e]
    norm_num
  have h200 : f64ToI64 ((200 : Rat) * 1000) = 200000 := by
    have e : (200 : Rat) * 1000 = 200000 := by norm_num
    rw [f64ToI64, e]
    norm_num
  constructor
  · simp [App.update_presence, App.attach_artwork, App.search_album_artwork,
      Cache.get, Cache.cleanup_expired, Cache.new, Cache.set, insertEntry,
      scenarioPlayer, bandSongProps, PresenceData.new, PresenceData.set_timing,
      PresenceData.set_artwork_info, h, h10, h200]
    omega
  · simp [App.update_presence, App.attach_artwork, App.search_album_artwork,
      Cache.get, Cache.cleanup_expired, Cache.new, Cache.set, insertEntry,
      scenarioPlayer, bandSongProps, PresenceData.new, PresenceData.set_timing,
      PresenceData.set_artwork_info, h, h10, h200]

/-- C1 witness: the scenario API at `t = 1700000000` seconds. -/
theorem end_to_end_scenario_witness :
    (App.update_presence scenarioApi scenarioPlayer 1700000000 Cache.new).2
      = .ok (.Presence
        { name := "Song", artist := "Band", album := "LP"
          artwork_url := some "https://img/1"
          share_url := some "https://link/1"
          start := some ((1700000000 : Int) * 1000 - 10000)
          end_ := some ((1700000000 : Int) * 1000 + 190000) }) ∧
    ((App.update_presence scenarioApi scenarioPlayer 1700000000
        Cache.new).1.data.lookup "Band Song").map CacheEntry.data
      = some ⟨some "https://img/1", some "https://link/1"⟩ :=
  end_to_end_scenario scenarioApi 1700000000 none rfl
